import Mathlib

/-!
Verification of the ed25519-scalar Solana wallet against its specification.

The development shallowly embeds the wallet's Solana helper library
(`getPublicKey`, `getSolBalance`, `getSPLTokenInfo`,
`signAndSendSolTransaction`, `signAndSendSPLTransferTransaction`) and the
metadata-aggregation logic of `App.tsx`.  External collaborators (the
web3.js transaction assembler, the ed25519 signer, the RPC node) are
abstracted as function-valued parameters, exactly as the spec scopes them
out; the repository's own control flow, branching, derivations and
arithmetic are translated faithfully.  JavaScript number arithmetic is
modelled as IEEE-754 binary64 with round-to-nearest-ties-to-even over
exact integer arithmetic (normal range; overflow and subnormals do not
arise at any input considered here).
-/

namespace Wallet

/-! ### IEEE-754 binary64 model (JavaScript `number`) -/

/-- A finite binary64 value `m * 2^e`.  Rounding always produces the
canonical form `|m| ∈ [2^52, 2^53)` (or `m = 0`, `e = 0`), so equality of
canonical `FP` values coincides with equality of the real numbers they
denote. -/
structure FP where
  m : Int
  e : Int
deriving DecidableEq

/-- The rational number denoted by an `FP` value. -/
def fToQ (x : FP) : ℚ :=
  (x.m : ℚ) * (2 : ℚ) ^ x.e

/-- Number of binary digits of `n`, by fuel-based structural recursion so
that the kernel can evaluate it. -/
def nbits : Nat → Nat → Nat
  | 0, _ => 0
  | fuel + 1, n => if n = 0 then 0 else nbits fuel (n / 2) + 1

/-- Is `n / d < 2^c` (for `d > 0`)? -/
def qltPow2 (n d : Nat) (c : Int) : Bool :=
  if 0 ≤ c then n < d * 2 ^ c.toNat else n * 2 ^ (-c).toNat < d

/-- Computes `⌊log₂ (n / d)⌋` for `n, d > 0`.  The candidate from digit counts is
off by at most one; a single comparison corrects it. -/
def ilog2 (n d : Nat) : Int :=
  let c : Int := (nbits 1100 n : Int) - (nbits 1100 d : Int)
  if qltPow2 n d c then c - 1 else c

/-- Round `num / den` (for `den > 0`) to the nearest integer, ties to
even. -/
def roundHalfEven (num den : Nat) : Nat :=
  let f := num / den
  let r := num % den
  if 2 * r < den then f
  else if den < 2 * r then f + 1
  else if f % 2 = 0 then f else f + 1

/-- Round the non-negative rational `n / d` (`n, d > 0`) to the nearest
binary64 value, ties to even. -/
def roundPos (n d : Nat) : FP :=
  let e : Int := ilog2 n d - 52
  let m : Nat :=
    if 0 ≤ e then roundHalfEven n (d * 2 ^ e.toNat)
    else roundHalfEven (n * 2 ^ (-e).toNat) d
  if m = 2 ^ 53 then ⟨(2 : Int) ^ 52, e + 1⟩ else ⟨(m : Int), e⟩

/-- Round the rational `num / den` (`den > 0`) to the nearest binary64
value. -/
def roundFP (num : Int) (den : Nat) : FP :=
  if num = 0 then ⟨0, 0⟩
  else if num < 0 then
    let p := roundPos num.natAbs den
    ⟨-p.m, p.e⟩
  else roundPos num.natAbs den

/-- Round `m * 2^s` to binary64. -/
def roundScaled (m : Int) (s : Int) : FP :=
  if 0 ≤ s then roundFP (m * 2 ^ s.toNat) 1
  else roundFP m (2 ^ (-s).toNat)

/-- binary64 multiplication: the exact product, rounded. -/
def fmul (a b : FP) : FP :=
  roundScaled (a.m * b.m) (a.e + b.e)

/-- binary64 division: the exact quotient, rounded.  (Division by a
nonzero value; the wallet only divides by the constant `10^9`.) -/
def fdiv (a b : FP) : FP :=
  let n : Int := if b.m < 0 then -a.m else a.m
  let d : Nat := b.m.natAbs
  let s : Int := a.e - b.e
  if 0 ≤ s then roundFP (n * 2 ^ s.toNat) d
  else roundFP n (d * 2 ^ (-s).toNat)

/-- The binary64 value of the decimal `n / 10^k` (what `parseFloat` yields
for such a decimal literal). -/
def fpDec (n : Nat) (k : Nat) : FP := roundFP (n : Int) (10 ^ k)

/-- The binary64 value of a natural number. -/
def fpNat (n : Nat) : FP := roundFP (n : Int) 1

/-- Models `Math.pow(10, d)`: exact for `d ≤ 22`, and correctly rounded here in
general (Solana token decimals fit in a byte, well inside the exact
range). -/
def pow10FP (d : Nat) : FP := fpNat (10 ^ d)

/-- The zero value. -/
def fpZero : FP := ⟨0, 0⟩

/-- Is this double an integral value?  `BigInt(x)` succeeds exactly for
integral finite doubles and throws a `RangeError` otherwise. -/
def FP.isInt (x : FP) : Bool :=
  if 0 ≤ x.e then true
  else decide (x.m % ((2 : Int) ^ (-x.e).toNat) = 0)

/-! ### Base-58 codec (the `bs58` dependency, modelled from the spec)

Modelled from the spec: the Address Codec, "base-58, no checksum,
no padding rules beyond standard base-58" — the `bs58` npm package is not
part of the repository, so the standard Bitcoin-alphabet codec it
implements is reproduced here. -/

def b58Alphabet : List Char :=
  "123456789ABCDEFGHJKLMNPQRSTUVWXYZabcdefghijkmnopqrstuvwxyz".toList

/-- The numeric value of one base-58 digit, `none` for a character outside
the alphabet (on which `bs58.decode` throws). -/
def b58Index (c : Char) : Option Nat :=
  b58Alphabet.findIdx? (· = c)

/-- The big-endian base-256 digits of `n` (empty for `0`), with explicit
fuel so the kernel can evaluate it; `fuel` bounds the digit count. -/
def natToBE : Nat → Nat → List Nat
  | 0, _ => []
  | fuel + 1, n => if n = 0 then [] else natToBE fuel (n / 256) ++ [n % 256]

/-- The big-endian base-58 digit values of `n` (empty for `0`). -/
def natTo58 : Nat → Nat → List Nat
  | 0, _ => []
  | fuel + 1, n => if n = 0 then [] else natTo58 fuel (n / 58) ++ [n % 58]

/-- Read a base-58 digit string as a number, `none` on a non-alphabet
character. -/
def b58ToNat (cs : List Char) : Option Nat :=
  cs.foldl (fun acc c => acc.bind fun n => (b58Index c).map fun v => n * 58 + v) (some 0)

/-- Models `bs58.decode`: leading `'1'` characters are leading zero bytes, the
rest is a big base-58 number; `none` when the string contains a character
outside the alphabet. -/
def bs58Decode (s : String) : Option (List Nat) :=
  let cs := s.toList
  let zeros := (cs.takeWhile (· = '1')).length
  (b58ToNat cs).map fun n => List.replicate zeros 0 ++ natToBE (cs.length + 1) n

/-- Models `bs58.encode`: leading zero bytes become `'1'` characters, the rest is
the base-58 rendering of the big number. -/
def bs58Encode (bs : List Nat) : String :=
  let zeros := (bs.takeWhile (· = 0)).length
  let n := bs.foldl (fun acc b => acc * 256 + b) 0
  String.mk (List.replicate zeros '1' ++
    (natTo58 (2 * bs.length + 1) n).map (fun v => b58Alphabet.getD v '?'))

/-- One lowercase hex digit. -/
def hexDigit (n : Nat) : Char := "0123456789abcdef".toList.getD n '?'

/-- Models `Buffer.from(bytes).toString("hex")`: lowercase hex. -/
def bytesToHex (bs : List Nat) : String :=
  String.mk (bs.foldr (fun b acc => hexDigit (b / 16) :: hexDigit (b % 16) :: acc) [])

/-! ### Data model -/

/-- An account address.  `raw` wraps an address string handed in by the
caller (the `PublicKey` constructor is an opaque wrapper here); `ata` is
the deterministic associated-token-address derivation
`getAssociatedTokenAddress(mint, owner, false, programId)`, recorded with
the exact inputs it was derived from. -/
inductive Addr where
  | raw (s : String)
  | ata (mint owner programId : String)
deriving DecidableEq

/-- The `value.data` of a `getParsedAccountInfo` response:
`program` is the owning program's label, `decimals` is
`parsed.info.decimals` (`none` when the parsed payload has no such field,
i.e. the JavaScript value is `undefined`). -/
structure ParsedAccountData where
  program : String
  decimals : Option Nat
deriving DecidableEq

/-- A transaction instruction as the wallet builds it. -/
inductive Instr where
  | systemTransfer (fromPubkey toPubkey : String) (lamports : FP)
  | createAssociatedTokenAccount (payer : String) (ata : Addr)
      (owner mint programId : String)
  | transferChecked (source : Addr) (mint : String) (dest : Addr)
      (owner : String) (amount : FP) (decimals : Nat)
      (programId : String)
deriving DecidableEq

/-- The signable transaction message (legacy or compiled-v0). -/
structure TxMessage where
  payerKey : String
  recentBlockhash : String
  instructions : List Instr
  versioned : Bool
deriving DecidableEq

/-- Name/symbol pair returned by `getSPLTokenInfo`. -/
structure TokenInfo where
  name : String
  symbol : String
deriving DecidableEq

/-- Observable events of one pipeline execution, in order: RPC reads and
writes (each recording the endpoint URL it targets), the external-signer
invocation, the local signature verification, and the key-derivation
call. -/
inductive Ev where
  | rpcGetParsedAccountInfo (url mint : String)
  | rpcGetAccountInfo (url : String) (addr : Addr)
  | rpcGetTokenMetadata (url mint : String)
  | rpcGetLatestBlockhash (url : String)
  | rpcSendRawTransaction (url : String) (raw : List Nat)
  | extSign (serializedHex : String)
  | verifySig (ok : Bool)
  | deriveKey (privateKeyHex : String)
deriving DecidableEq

/-- The errors the library throws (`throw new Error(...)` / library
throws), tagged by their message. -/
inductive WErr where
  /-- Thrown by `bs58.decode` on a character outside the alphabet. -/
  | invalidBase58
  /-- Message "Invalid private key length". -/
  | invalidPrivateKeyLength
  /-- Message "Signature verification failed". -/
  | signatureVerificationFailed
  /-- Message "No program data found for SPL token ...". -/
  | noProgramData
  /-- Message "Sender ... does not have a token account for SPL token ...". -/
  | senderHasNoAccount
  /-- RangeError thrown by `BigInt(amount)` inside
  `createTransferCheckedInstruction` when `amount * Math.pow(10, decimals)`
  is a non-integral double or NaN. -/
  | rangeErrorBigInt
  /-- Assertion failure of `addSignature`: the attached signature must be
  exactly 64 bytes. -/
  | invalidSignatureLength
  /-- TypeError from reading a property of `undefined` (the
  `(accountInfo?.value?.data).program` access in `getSPLTokenInfo` when
  the account does not exist). -/
  | typeErrorUndefined
deriving DecidableEq

/-- Modelled from the spec: the pure external collaborators — the
web3.js serializers of the Transaction Assembler, the ed25519 signer
(`signAsync`), the ed25519 verifier behind `tx.verifySignatures()`, and
the key derivation (`getPublicKeyAsync`).  They are deterministic
black-box functions; every theorem quantifies over them. -/
structure Lib where
  serializeLegacyMessage : TxMessage → List Nat
  serializeLegacyTx : TxMessage → List Nat → List Nat
  serializeV0Message : TxMessage → List Nat
  serializeV0Tx : TxMessage → List Nat → List Nat
  signAsync : String → String → List Nat
  edVerify : List Nat → List Nat → String → Bool
  getPublicKeyAsync : String → List Nat

/-- Modelled from the spec: the RPC node's responses, as one fixed oracle
mapping each request to its response (the chain state observed during the
run). -/
structure Chain where
  latestBlockhash : String
  parsedAccountInfo : String → Option ParsedAccountData
  accountInfo : Addr → Bool
  tokenMetadata : String → Option TokenInfo
  sendRawTransaction : List Nat → String

instance : DecidableEq (Except WErr String) := fun a b =>
  match a, b with
  | .ok x, .ok y =>
    if h : x = y then isTrue (by rw [h]) else isFalse (by simp [h])
  | .error x, .error y =>
    if h : x = y then isTrue (by rw [h]) else isFalse (by simp [h])
  | .ok _, .error _ => isFalse (by simp)
  | .error _, .ok _ => isFalse (by simp)

/-- The observable outcome of one pipeline execution: the returned value
or thrown error, the event trace, and the transaction message that was
assembled (if execution got that far; it stays recorded when a later
step, such as attaching the signature, throws). -/
structure Run where
  result : Except WErr String
  trace : List Ev
  message : Option TxMessage
deriving DecidableEq

/-! ### The library functions (translated from `src/libs/solana.ts`,
the version `App.tsx` imports) -/

def DEVNET_URL : String := "https://api.devnet.solana.com"
def MAINNET_URL : String := "https://api.mainnet-beta.solana.com"
def TOKEN_PROGRAM_ID : String := "TokenkegQfeZyiNwAJbNbGKPFXCWuBvf9Ss623VQ5DA"
def TOKEN_2022_PROGRAM_ID : String := "TokenzQdBNbLqP5VEhdkAS6EPFLC1PHnBqCXEpPxuEb"

def getNetworkUrl (useMainnet : Bool) : String :=
  if useMainnet then MAINNET_URL else DEVNET_URL

/-- Constant `LAMPORTS_PER_SOL` (`10^9`, exactly representable). -/
def LAMPORTS_PER_SOL : FP := fpNat 1000000000

/-- Function `getSolBalance`: `fetch(...).then(res => res.json()).then(body =>
body.result.value / LAMPORTS_PER_SOL).catch(err => 0)`.  The argument is
the outcome of the fetch: `Except.error` for a network/parse failure
(lands in the `catch`, returns 0); `Except.ok none` for a body whose
`result` field is absent — reading `.value` of `undefined` throws a
`TypeError` inside the `then` handler, which the same `catch` turns into
0; `Except.ok (some none)` for a body whose `result` is present but whose
`value` is missing or non-numeric — then `lamports` is `undefined`, no
exception is thrown, and `undefined / LAMPORTS_PER_SOL` is NaN (returned
as `none`); `Except.ok (some (some lamports))` for a well-formed
response. -/
def getSolBalance (resp : Except Unit (Option (Option FP))) : Option FP :=
  match resp with
  | .error _ => some fpZero
  | .ok none => some fpZero
  | .ok (some none) => none
  | .ok (some (some lamports)) => some (fdiv lamports LAMPORTS_PER_SOL)

/-- Function `getPublicKey`: base58-decode the private key, reject any length
other than 32, otherwise derive and base58-encode the public key.  The
trace records the `getPublicKeyAsync` invocation. -/
def getPublicKey (lib : Lib) (privateKey : String) :
    Except WErr String × List Ev :=
  match bs58Decode privateKey with
  | none => (.error .invalidBase58, [])
  | some privateKeyBytes =>
    if privateKeyBytes.length ≠ 32 then (.error .invalidPrivateKeyLength, [])
    else
      let privateKeyHex := bytesToHex privateKeyBytes
      let result := lib.getPublicKeyAsync privateKeyHex
      (.ok (bs58Encode result), [.deriveKey privateKeyHex])

/-- Function `App.importSolanaWallet`: the wallet address it stores is
`getPublicKey(scalarKey)`; the network toggle in scope is passed only to
the subsequent `getSolBalance` call, never to the derivation. -/
def importSolanaWalletAddress (lib : Lib) (scalarKey : String)
    (useMainnet : Bool) : Except WErr String :=
  (getPublicKey lib scalarKey).1

/-- Function `signAndSendSolTransaction`: build a one-instruction legacy transfer
transaction, sign it externally, attach the signature
(`tx.addSignature` asserts it is exactly 64 bytes and throws otherwise),
locally verify it, and submit only when verification succeeded. -/
def signAndSendSolTransaction (lib : Lib) (chain : Chain)
    (scalarKey fromAddress toAddress : String) (amount : FP)
    (useMainnet : Bool) : Run :=
  let network := getNetworkUrl useMainnet
  match bs58Decode scalarKey with
  | none => ⟨.error .invalidBase58, [], none⟩
  | some keyBytes =>
    let privateKeyHex := bytesToHex keyBytes
    let blockhash := chain.latestBlockhash
    let ev0 := [Ev.rpcGetLatestBlockhash network]
    let tx : TxMessage :=
      ⟨fromAddress, blockhash,
        [.systemTransfer fromAddress toAddress (fmul LAMPORTS_PER_SOL amount)],
        false⟩
    let serializedMessage := lib.serializeLegacyMessage tx
    let serializedHex := bytesToHex serializedMessage
    let transactionSignature := lib.signAsync serializedHex privateKeyHex
    let ev1 := ev0 ++ [Ev.extSign serializedHex]
    -- `tx.addSignature` asserts a 64-byte signature before anything else
    if transactionSignature.length = 64 then
      let ok := lib.edVerify serializedMessage transactionSignature fromAddress
      let ev2 := ev1 ++ [Ev.verifySig ok]
      if ok then
        let rawTransaction := lib.serializeLegacyTx tx transactionSignature
        let hash := chain.sendRawTransaction rawTransaction
        ⟨.ok hash, ev2 ++ [Ev.rpcSendRawTransaction network rawTransaction], some tx⟩
      else ⟨.error .signatureVerificationFailed, ev2, some tx⟩
    else ⟨.error .invalidSignatureLength, ev1, some tx⟩

/-- Function `getSPLTokenInfo`: read the mint's parsed account and fetch
name/symbol metadata only for the `spl-token-2022` program; any other
existing parsed account degrades to empty fields.  When the account does
not exist, `(accountInfo?.value?.data as ParsedAccountData).program`
reads a property of `undefined` and the function rejects with a
TypeError. -/
def getSPLTokenInfo (chain : Chain) (tokenAddress : String)
    (useMainnet : Bool) : Except WErr TokenInfo × List Ev :=
  let network := getNetworkUrl useMainnet
  let accountInfo := chain.parsedAccountInfo tokenAddress
  let ev0 := [Ev.rpcGetParsedAccountInfo network tokenAddress]
  match accountInfo with
  | none => (.error .typeErrorUndefined, ev0)
  | some pd =>
    if pd.program == "spl-token-2022" then
      let metadata := chain.tokenMetadata tokenAddress
      (.ok ⟨(metadata.map TokenInfo.name).getD "",
            (metadata.map TokenInfo.symbol).getD ""⟩,
       ev0 ++ [Ev.rpcGetTokenMetadata network tokenAddress])
    else (.ok ⟨"", ""⟩, ev0)

/-- Function `signAndSendSPLTransferTransaction`: resolve the mint's program and
decimals from its parsed account, derive both associated token addresses
with the resolved program id, require the sender's to exist, create the
recipient's when missing, build the transfer-checked instruction with
`amount * Math.pow(10, tokenDecimals)` (the spl-token encoder runs
`BigInt(amount)`, which throws a RangeError when that product is a
non-integral double or NaN), compile a v0 message, sign it externally,
attach the signature (`addSignature` asserts 64 bytes) and submit — with
no local verification step. -/
def signAndSendSPLTransferTransaction (lib : Lib) (chain : Chain)
    (scalarKey sender recipient : String) (amount : FP)
    (tokenAddress : String) (useMainnet : Bool) : Run :=
  let network := getNetworkUrl useMainnet
  match bs58Decode scalarKey with
  | none => ⟨.error .invalidBase58, [], none⟩
  | some keyBytes =>
    let privateKeyHex := bytesToHex keyBytes
    let tokenInfo := chain.parsedAccountInfo tokenAddress
    let ev0 := [Ev.rpcGetParsedAccountInfo network tokenAddress]
    -- `if (!tokenInfo)`: `tokenInfo` is the RPC response object, which is
    -- always truthy, so that branch is dead; a missing account surfaces as
    -- `tokenInfo.value?.data` being undefined below.
    match tokenInfo with
    | none => ⟨.error .noProgramData, ev0, none⟩
    | some programData =>
      let tokenProgramId :=
        if programData.program = "spl-token-2022" then TOKEN_2022_PROGRAM_ID
        else TOKEN_PROGRAM_ID
      let tokenDecimals := programData.decimals
      let senderTokenAddress := Addr.ata tokenAddress sender tokenProgramId
      let ev1 := ev0 ++ [Ev.rpcGetAccountInfo network senderTokenAddress]
      if chain.accountInfo senderTokenAddress = false then
        ⟨.error .senderHasNoAccount, ev1, none⟩
      else
        let receiverTokenAddress := Addr.ata tokenAddress recipient tokenProgramId
        let ev2 := ev1 ++ [Ev.rpcGetAccountInfo network receiverTokenAddress]
        let instructions : List Instr :=
          if chain.accountInfo receiverTokenAddress then []
          else [.createAssociatedTokenAccount sender receiverTokenAddress
                  recipient tokenAddress tokenProgramId]
        let ev3 := ev2 ++ [Ev.rpcGetLatestBlockhash network]
        match tokenDecimals with
        | none =>
          -- `Math.pow(10, undefined)` is NaN, so `BigInt(amount * NaN)`
          -- inside `createTransferCheckedInstruction` throws a RangeError
          -- before any instruction or message exists.
          ⟨.error .rangeErrorBigInt, ev3, none⟩
        | some d =>
          let amountUnits := fmul amount (pow10FP d)
          if amountUnits.isInt then
            let instructions := instructions ++
              [.transferChecked senderTokenAddress tokenAddress
                receiverTokenAddress sender amountUnits d tokenProgramId]
            let message : TxMessage := ⟨sender, chain.latestBlockhash, instructions, true⟩
            let serializedTransaction := lib.serializeV0Message message
            let serializedHex := bytesToHex serializedTransaction
            let transactionSignature := lib.signAsync serializedHex privateKeyHex
            -- `transaction.addSignature` asserts a 64-byte signature
            if transactionSignature.length = 64 then
              let rawTransaction := lib.serializeV0Tx message transactionSignature
              let hash := chain.sendRawTransaction rawTransaction
              ⟨.ok hash,
               ev3 ++ [Ev.extSign serializedHex,
                 Ev.rpcSendRawTransaction network rawTransaction],
               some message⟩
            else ⟨.error .invalidSignatureLength,
                  ev3 ++ [Ev.extSign serializedHex], some message⟩
          else
            -- `BigInt(amount)` throws a RangeError for a non-integral
            -- double: no instruction is built and no message assembled.
            ⟨.error .rangeErrorBigInt, ev3, none⟩

/-- From `App.tsx` `fetchSplBalances` metadata aggregation: the placeholder
installed when a single metadata read fails. -/
def placeholderMeta : TokenInfo := ⟨"Unknown Token", "UNKNOWN"⟩

/-- One entry of the aggregation: `info.name || "Unknown Token"` /
`info.symbol || "UNKNOWN"` on success (empty strings are falsy), the
placeholder when the read threw. -/
def metaOf (r : Except Unit TokenInfo) : TokenInfo :=
  match r with
  | .ok info =>
    ⟨if info.name = "" then "Unknown Token" else info.name,
     if info.symbol = "" then "UNKNOWN" else info.symbol⟩
  | .error _ => placeholderMeta

/-- The metadata aggregation over all discovered token addresses: each
address gets its own independently-computed entry (the concurrent
`Promise.all` writes target distinct keys, so the join is this map). -/
def fetchSplTokenMetadata (getInfo : String → Except Unit TokenInfo)
    (tokenAddresses : List String) : List (String × TokenInfo) :=
  tokenAddresses.map fun address => (address, metaOf (getInfo address))

/-! ### Observation helpers for the theorems -/

/-- The token program id the pipeline resolves from the parsed account
data (the source's ternary on `programData.program`). -/
def resolvedProgramId (pd : ParsedAccountData) : String :=
  if pd.program = "spl-token-2022" then TOKEN_2022_PROGRAM_ID
  else TOKEN_PROGRAM_ID

def evIsSend : Ev → Bool
  | .rpcSendRawTransaction _ _ => true
  | _ => false

def evIsSign : Ev → Bool
  | .extSign _ => true
  | _ => false

def evIsVerify : Ev → Bool
  | .verifySig _ => true
  | _ => false

/-- Does the trace contain a `sendRawTransaction` submission? -/
def hasSend (t : List Ev) : Bool := t.any evIsSend

/-- Does the trace contain an external-signer invocation? -/
def hasSign (t : List Ev) : Bool := t.any evIsSign

/-- Does the trace contain a local signature-verification step at all? -/
def hasVerify (t : List Ev) : Bool := t.any evIsVerify

/-- Scan of a trace: every submission must be preceded by a successful
local verification (`seen` records whether one has occurred so far). -/
def sendGuardedAux : Bool → List Ev → Bool
  | _, [] => true
  | seen, .verifySig b :: rest => sendGuardedAux (seen || b) rest
  | seen, .rpcSendRawTransaction _ _ :: rest => seen && sendGuardedAux seen rest
  | seen, _ :: rest => sendGuardedAux seen rest

/-- Every submission in the trace happens strictly after a successful
local signature verification. -/
def sendOnlyAfterVerifiedOk (t : List Ev) : Bool := sendGuardedAux false t

/-- Erase the endpoint URL from an event (to compare traces up to the
network targeted). -/
def stripUrl : Ev → Ev
  | .rpcGetParsedAccountInfo _ m => .rpcGetParsedAccountInfo "" m
  | .rpcGetAccountInfo _ a => .rpcGetAccountInfo "" a
  | .rpcGetTokenMetadata _ m => .rpcGetTokenMetadata "" m
  | .rpcGetLatestBlockhash _ => .rpcGetLatestBlockhash ""
  | .rpcSendRawTransaction _ r => .rpcSendRawTransaction "" r
  | e => e

/-- The endpoint URL an event targets, for RPC events. -/
def urlOf : Ev → Option String
  | .rpcGetParsedAccountInfo u _ => some u
  | .rpcGetAccountInfo u _ => some u
  | .rpcGetTokenMetadata u _ => some u
  | .rpcGetLatestBlockhash u => some u
  | .rpcSendRawTransaction u _ => some u
  | _ => none

/-- All endpoint URLs targeted by the trace, in order. -/
def urlsOf (t : List Ev) : List String := t.filterMap urlOf

def resultIsOk : Except WErr String → Bool
  | .ok _ => true
  | .error _ => false

/-- The shape of an instruction, for ordering statements. -/
inductive IKind where
  | create
  | transfer
  | system
deriving DecidableEq

def instrKind : Instr → IKind
  | .systemTransfer .. => .system
  | .createAssociatedTokenAccount .. => .create
  | .transferChecked .. => .transfer

/-- The kinds of the instructions of the assembled message (empty when no
message was assembled). -/
def runInstrKinds (r : Run) : List IKind :=
  ((r.message.map TxMessage.instructions).getD []).map instrKind

def addrProgramIds : Addr → List String
  | .raw _ => []
  | .ata _ _ p => [p]

/-- Every token-program id an instruction references: those baked into
its derived associated addresses and its own `programId` field. -/
def instrProgramIds : Instr → List String
  | .systemTransfer .. => []
  | .createAssociatedTokenAccount _ a _ _ pid => addrProgramIds a ++ [pid]
  | .transferChecked s _ d _ _ _ pid => addrProgramIds s ++ addrProgramIds d ++ [pid]

/-- All token-program ids referenced across the assembled message. -/
def runProgramIds (r : Run) : List String :=
  (((r.message.map TxMessage.instructions).getD []).map instrProgramIds).flatten

/-- The `amount` fields of the transfer-checked instructions of the
assembled message. -/
def runTransferAmounts (r : Run) : List FP :=
  ((r.message.map TxMessage.instructions).getD []).filterMap fun i =>
    match i with
    | .transferChecked _ _ _ _ amt _ _ => some amt
    | _ => none

/-! ### Concrete collaborator instances for closed statements -/

/-- A concrete instantiation of the black-box collaborators whose
ed25519 verifier rejects everything: under it, any locally-verified
submission is impossible. -/
def lib0 : Lib :=
  ⟨fun _ => [], fun _ _ => [], fun _ => [], fun _ _ => [],
   fun _ _ => [], fun _ _ _ => false, fun _ => []⟩

/-- Like `lib0`, but the external signer honours its contract and returns
a 64-byte signature (all zero bytes), so `addSignature` accepts it; the
ed25519 verifier still rejects everything. -/
def lib64 : Lib :=
  ⟨fun _ => [], fun _ _ => [], fun _ => [], fun _ _ => [],
   fun _ _ => List.replicate 64 0, fun _ _ _ => false, fun _ => []⟩

/-- A chain whose mint account parses as `spl-token-2022` with 6 decimals
and on which every account exists. -/
def chain2022 : Chain :=
  ⟨"bh", fun _ => some ⟨"spl-token-2022", some 6⟩, fun _ => true,
   fun _ => none, fun _ => "txhash"⟩

/-- A chain like `chain2022` but with 2 decimals. -/
def chainDec2 : Chain :=
  ⟨"bh", fun _ => some ⟨"spl-token-2022", some 2⟩, fun _ => true,
   fun _ => none, fun _ => "txhash"⟩

/-- A chain whose mint account exists but reports a program identifier
that is not a recognized token program. -/
def chainBogus : Chain :=
  ⟨"bh", fun _ => some ⟨"bogus-program", some 2⟩, fun _ => true,
   fun _ => none, fun _ => "txhash"⟩

/-- A chain on which only the sender's associated token address (for mint
"M", owner "S", 2022 program) exists. -/
def chainSenderOnly : Chain :=
  ⟨"bh", fun _ => some ⟨"spl-token-2022", some 6⟩,
   fun a => a == Addr.ata "M" "S" TOKEN_2022_PROGRAM_ID,
   fun _ => none, fun _ => "txhash"⟩

/-- A concrete metadata oracle that fails exactly on address "A". -/
def infoFailA : String → Except Unit TokenInfo :=
  fun x => if x = "A" then .error () else .ok ⟨"Token", "TOK"⟩

/-- A concrete metadata oracle that always succeeds. -/
def infoAllOk : String → Except Unit TokenInfo :=
  fun _ => .ok ⟨"Token", "TOK"⟩

end Wallet

namespace Wallet

set_option maxRecDepth 100000

/-! ### Claims -/

/-- Helper: the recorded message of an either-branch run is the first
branch's when both branches record the same message (used to reason past
the 64-byte signature check, whose two outcomes share the already
assembled message). -/
theorem message_ite (c : Prop) [Decidable c] (r1 r2 : Run)
    (h : r1.message = r2.message) :
    (if c then r1 else r2).message = r1.message := by
  split
  · rfl
  · exact h.symm

/-- Counterexample to claim C10: a malformed RPC body whose `result`
field is present but whose `value` is missing or non-numeric makes
`body.result.value` come out `undefined` — no exception is thrown, the
`catch` never runs, and the division yields NaN, not 0, so this failure
is distinguishable from a genuine zero balance. -/
theorem C10_counterexample :
    getSolBalance (Except.ok (some none)) = none ∧
    (none : Option FP) ≠ some fpZero := by
  decide

/-- Claim C10 as amended: `getSolBalance` is total over collaborator
outcomes and never propagates a failure as an exception, but not every
failure reads as 0: a network error and a body with no `result` field
both land in the `catch` and return 0 — those are indistinguishable from
a genuine zero balance — while a body whose `result.value` is missing or
non-numeric returns NaN. -/
theorem C10_amended_nanOnMissingValue (lamports : FP) :
    getSolBalance (Except.error ()) = some fpZero ∧
    getSolBalance (Except.ok none) = some fpZero ∧
    getSolBalance (Except.ok (some (some fpZero))) = getSolBalance (Except.error ()) ∧
    getSolBalance (Except.ok (some none)) = none ∧
    getSolBalance (Except.ok (some (some lamports)))
      = some (fdiv lamports LAMPORTS_PER_SOL) :=
  ⟨rfl, rfl, by decide, rfl, rfl⟩

/-- Claim C8: for every base58 input whose decoded byte length is not 32,
`getPublicKey` fails immediately with the invalid-private-key error and
performs no key derivation (empty trace); for every input decoding to
exactly 32 bytes it returns the base58 encoding of the derived public
key. -/
theorem C8_getPublicKeyValidation (lib : Lib) (s : String) (bs : List Nat)
    (h : bs58Decode s = some bs) :
    (bs.length ≠ 32 → getPublicKey lib s = (.error .invalidPrivateKeyLength, [])) ∧
    (bs.length = 32 →
      getPublicKey lib s =
        (.ok (bs58Encode (lib.getPublicKeyAsync (bytesToHex bs))),
         [.deriveKey (bytesToHex bs)])) := by
  constructor
  · intro hne
    simp [getPublicKey, h, hne]
  · intro he
    simp [getPublicKey, h, he]

/-- Witness for C8: the one-byte input "2" is rejected with the
invalid-private-key error and an empty trace; the 32-zero-byte input is
accepted and derived. -/
theorem C8_witness :
    getPublicKey lib0 "2" = (.error .invalidPrivateKeyLength, []) ∧
    getPublicKey lib0 "11111111111111111111111111111111" =
      (.ok (bs58Encode (lib0.getPublicKeyAsync (bytesToHex (List.replicate 32 0)))),
       [.deriveKey (bytesToHex (List.replicate 32 0))]) :=
  ⟨(C8_getPublicKeyValidation lib0 "2" [1] (by decide)).1 (by decide),
   (C8_getPublicKeyValidation lib0 "11111111111111111111111111111111"
      (List.replicate 32 0) (by decide)).2 (by decide)⟩

/-- Helper: a failing read yields the placeholder entry for its own
address. -/
theorem lookup_fetchMeta_fail (getInfo : String → Except Unit TokenInfo)
    (l : List String) (a : String) (ha : a ∈ l)
    (hfail : getInfo a = .error ()) :
    List.lookup a (fetchSplTokenMetadata getInfo l) = some placeholderMeta := by
  induction l with
  | nil => cases ha
  | cons x xs ih =>
    by_cases hax : a = x
    · subst hax
      simp [fetchSplTokenMetadata, List.lookup, hfail, metaOf]
    · rcases List.mem_cons.mp ha with h | h
      · exact absurd h hax
      · simpa [fetchSplTokenMetadata, List.lookup, beq_false_of_ne hax]
          using ih h

/-- Helper: entries for addresses other than `a` do not depend on the
oracle's behaviour at `a`. -/
theorem lookup_fetchMeta_agree (getInfo g2 : String → Except Unit TokenInfo)
    (l : List String) (a b : String) (hb : b ≠ a)
    (hagree : ∀ x, x ≠ a → g2 x = getInfo x) :
    List.lookup b (fetchSplTokenMetadata getInfo l) =
      List.lookup b (fetchSplTokenMetadata g2 l) := by
  induction l with
  | nil => simp [fetchSplTokenMetadata]
  | cons x xs ih =>
    by_cases hbx : b = x
    · subst hbx
      simp [fetchSplTokenMetadata, List.lookup, hagree b hb]
    · simpa [fetchSplTokenMetadata, List.lookup, beq_false_of_ne hbx]
        using ih

/-- Claim C9: in the metadata aggregation, a failing read for one asset
yields the placeholder for that asset only, the entries of all other
assets do not depend on it, and the aggregate always produces one entry
per asset (it never fails as a whole). -/
theorem C9_metadataIsolation (getInfo g2 : String → Except Unit TokenInfo)
    (tokenAddresses : List String) (a b : String)
    (ha : a ∈ tokenAddresses) (hfail : getInfo a = .error ())
    (hagree : ∀ x, x ≠ a → g2 x = getInfo x) (hb : b ≠ a) :
    List.lookup a (fetchSplTokenMetadata getInfo tokenAddresses) = some placeholderMeta ∧
    List.lookup b (fetchSplTokenMetadata getInfo tokenAddresses) =
      List.lookup b (fetchSplTokenMetadata g2 tokenAddresses) ∧
    (fetchSplTokenMetadata getInfo tokenAddresses).length = tokenAddresses.length :=
  ⟨lookup_fetchMeta_fail getInfo tokenAddresses a ha hfail,
   lookup_fetchMeta_agree getInfo g2 tokenAddresses a b hb hagree,
   by simp [fetchSplTokenMetadata]⟩

/-- Witness for C9: with assets ["A", "B"] and a read that fails on "A",
the entry for "A" is the placeholder, the entry for "B" agrees with the
run under an everywhere-succeeding oracle, and both assets get entries. -/
theorem C9_witness :
    List.lookup "A" (fetchSplTokenMetadata infoFailA ["A", "B"]) = some placeholderMeta ∧
    List.lookup "B" (fetchSplTokenMetadata infoFailA ["A", "B"]) =
      List.lookup "B" (fetchSplTokenMetadata infoAllOk ["A", "B"]) ∧
    (fetchSplTokenMetadata infoFailA ["A", "B"]).length =
      (["A", "B"] : List String).length :=
  C9_metadataIsolation infoFailA infoAllOk ["A", "B"] "A" "B" (by simp)
    (by simp [infoFailA]) (fun x hx => by simp [infoFailA, infoAllOk, hx]) (by decide)

/-- Counterexample to claim C1: under a signer that returns a well-formed
64-byte signature but an ed25519 verifier that rejects every signature
(so local verification, had it been performed, would have failed), the
token pipeline still submits via `sendRawTransaction` and returns the
hash — its trace contains a submission and no verification event at all,
refuting "submitted only after local verification has succeeded" for the
token path. -/
theorem C1_counterexample :
    (signAndSendSPLTransferTransaction lib64 chain2022 "2" "S" "R" (fpNat 1) "M" true).result
      = .ok "txhash" ∧
    hasSend (signAndSendSPLTransferTransaction lib64 chain2022 "2" "S" "R" (fpNat 1) "M" true).trace
      = true ∧
    hasVerify (signAndSendSPLTransferTransaction lib64 chain2022 "2" "S" "R" (fpNat 1) "M" true).trace
      = false := by
  decide

/-- Claim C1 as amended: in the native pipeline every submission is
strictly preceded by a successful local verification, and when
verification fails nothing is submitted and the call does not return a
hash; the token pipeline, however, performs no local verification step
before submitting. -/
theorem C1_amended_verifyBeforeSend (lib : Lib) (chain : Chain)
    (scalarKey fromAddress toAddress sender recipient tokenAddress : String)
    (amount : FP) (useMainnet : Bool) :
    sendOnlyAfterVerifiedOk
      (signAndSendSolTransaction lib chain scalarKey fromAddress toAddress amount useMainnet).trace
      = true ∧
    hasSend
      (signAndSendSolTransaction { lib with edVerify := fun _ _ _ => false }
        chain scalarKey fromAddress toAddress amount useMainnet).trace
      = false ∧
    resultIsOk
      (signAndSendSolTransaction { lib with edVerify := fun _ _ _ => false }
        chain scalarKey fromAddress toAddress amount useMainnet).result
      = false ∧
    hasVerify
      (signAndSendSPLTransferTransaction lib chain scalarKey sender recipient
        amount tokenAddress useMainnet).trace
      = false := by
  refine ⟨?_, ?_, ?_, ?_⟩
  · cases hbs : bs58Decode scalarKey with
    | none =>
      simp [signAndSendSolTransaction, hbs, sendOnlyAfterVerifiedOk, sendGuardedAux]
    | some keyBytes =>
      simp only [signAndSendSolTransaction, hbs]
      split
      · split
        · next h =>
          simp [sendOnlyAfterVerifiedOk, sendGuardedAux, h]
        · next h =>
          rw [Bool.not_eq_true] at h
          simp [sendOnlyAfterVerifiedOk, sendGuardedAux, h]
      · simp [sendOnlyAfterVerifiedOk, sendGuardedAux]
  · cases hbs : bs58Decode scalarKey with
    | none => simp [signAndSendSolTransaction, hbs, hasSend]
    | some keyBytes =>
      simp only [signAndSendSolTransaction, hbs]
      split <;> simp [hasSend, evIsSend]
  · cases hbs : bs58Decode scalarKey with
    | none => simp [signAndSendSolTransaction, hbs, resultIsOk]
    | some keyBytes =>
      simp only [signAndSendSolTransaction, hbs]
      split <;> simp [resultIsOk]
  · cases hbs : bs58Decode scalarKey with
    | none => simp [signAndSendSPLTransferTransaction, hbs, hasVerify]
    | some keyBytes =>
      cases hpi : chain.parsedAccountInfo tokenAddress with
      | none => simp [signAndSendSPLTransferTransaction, hbs, hpi, hasVerify, evIsVerify]
      | some pd =>
        simp only [signAndSendSPLTransferTransaction, hbs, hpi]
        repeat' split
        all_goals simp [hasVerify, evIsVerify]

/-- Counterexample to claim C2: for user amount 0.29 (as the double
`parseFloat` produces) and 2 decimals, the double product is the
non-integral `28.999999999999996447…`, so `BigInt(amount)` inside
`createTransferCheckedInstruction` throws a RangeError — no amount at
all is placed in a transfer-checked instruction (in particular not
`round(0.29 * 10^2) = 29`), no message is assembled, and nothing is
signed or submitted. -/
theorem C2_counterexample :
    (signAndSendSPLTransferTransaction lib64 chainDec2 "2" "S" "R" (fpDec 29 2) "M" true).result
      = .error .rangeErrorBigInt ∧
    runTransferAmounts
      (signAndSendSPLTransferTransaction lib64 chainDec2 "2" "S" "R" (fpDec 29 2) "M" true)
      = [] ∧
    (signAndSendSPLTransferTransaction lib64 chainDec2 "2" "S" "R" (fpDec 29 2) "M" true).message
      = none ∧
    hasSign (signAndSendSPLTransferTransaction lib64 chainDec2 "2" "S" "R" (fpDec 29 2) "M" true).trace
      = false ∧
    hasSend (signAndSendSPLTransferTransaction lib64 chainDec2 "2" "S" "R" (fpDec 29 2) "M" true).trace
      = false ∧
    fmul (fpDec 29 2) (pow10FP 2) = ⟨8162774324609023, -48⟩ ∧
    FP.isInt ⟨8162774324609023, -48⟩ = false ∧
    fToQ ⟨8162774324609023, -48⟩ ≠ ((round (fToQ (fpDec 29 2) * 10 ^ 2) : ℤ) : ℚ) := by
  refine ⟨by decide, by decide, by decide, by decide, by decide, by decide, by decide, ?_⟩
  have h1 : fpDec 29 2 = ⟨5224175567749775, -54⟩ := by decide
  have h2 : (round (fToQ (fpDec 29 2) * 10 ^ 2) : ℤ) = 29 := by
    rw [h1, round_eq]
    norm_num [fToQ]
  rw [h2]
  norm_num [fToQ]

/-- Claim C2 as amended: when the IEEE-754 double product
`amount * 10^decimals` is integral, exactly that integer is the amount
placed in the transfer-checked instruction — on the spec's fixtures it
equals `round(amount * 10^decimals)`: amount 1.5 with 6 decimals places
exactly 1500000 and amount 0.000001 with 6 decimals places exactly 1 —
but when the double product is non-integral the operation throws a
RangeError from `BigInt` inside the instruction builder and no amount is
placed at all. -/
theorem C2_amended_integralAmountOrRangeError (lib : Lib) (chain : Chain)
    (sender recipient tokenAddress : String) (amount : FP) (d : Nat)
    (useMainnet : Bool) :
    runTransferAmounts
      (signAndSendSPLTransferTransaction lib64 chain2022 "2" "S" "R" (fpDec 15 1) "M" true)
      = [⟨6442450944000000, -32⟩] ∧
    fToQ ⟨6442450944000000, -32⟩ = (1500000 : ℚ) ∧
    runTransferAmounts
      (signAndSendSPLTransferTransaction lib64 chain2022 "2" "S" "R" (fpDec 1 6) "M" true)
      = [⟨4503599627370496, -52⟩] ∧
    fToQ ⟨4503599627370496, -52⟩ = (1 : ℚ) ∧
    ((fmul amount (pow10FP d)).isInt = true →
      runTransferAmounts
        (signAndSendSPLTransferTransaction lib
          { chain with
              parsedAccountInfo := fun _ => some ⟨"spl-token-2022", some d⟩,
              accountInfo := fun _ => true }
          "2" sender recipient amount tokenAddress useMainnet)
        = [fmul amount (pow10FP d)]) ∧
    ((fmul amount (pow10FP d)).isInt = false →
      (signAndSendSPLTransferTransaction lib
          { chain with
              parsedAccountInfo := fun _ => some ⟨"spl-token-2022", some d⟩,
              accountInfo := fun _ => true }
          "2" sender recipient amount tokenAddress useMainnet).result
        = .error .rangeErrorBigInt ∧
      runTransferAmounts
        (signAndSendSPLTransferTransaction lib
          { chain with
              parsedAccountInfo := fun _ => some ⟨"spl-token-2022", some d⟩,
              accountInfo := fun _ => true }
          "2" sender recipient amount tokenAddress useMainnet)
        = []) := by
  have hbs : bs58Decode "2" = some [1] := by decide
  refine ⟨by decide, by norm_num [fToQ], by decide, by norm_num [fToQ], ?_, ?_⟩
  · intro hInt
    simp only [signAndSendSPLTransferTransaction, hbs]
    simp [hInt, runTransferAmounts]
    split <;> simp [runTransferAmounts]
  · intro hInt
    simp [signAndSendSPLTransferTransaction, hbs, hInt, runTransferAmounts]

/-- Witness for C2's amended claim: amount 1 with 6 decimals (integral
product) places exactly the product, while amount 0.29 with 2 decimals
(non-integral product) raises the RangeError and places nothing. -/
theorem C2_witness :
    runTransferAmounts
      (signAndSendSPLTransferTransaction lib64
        { chain2022 with
            parsedAccountInfo := fun _ => some ⟨"spl-token-2022", some 6⟩,
            accountInfo := fun _ => true }
        "2" "S" "R" (fpNat 1) "M" true)
      = [fmul (fpNat 1) (pow10FP 6)] ∧
    ((signAndSendSPLTransferTransaction lib64
        { chain2022 with
            parsedAccountInfo := fun _ => some ⟨"spl-token-2022", some 2⟩,
            accountInfo := fun _ => true }
        "2" "S" "R" (fpDec 29 2) "M" true).result
      = .error .rangeErrorBigInt ∧
    runTransferAmounts
      (signAndSendSPLTransferTransaction lib64
        { chain2022 with
            parsedAccountInfo := fun _ => some ⟨"spl-token-2022", some 2⟩,
            accountInfo := fun _ => true }
        "2" "S" "R" (fpDec 29 2) "M" true)
      = []) :=
  ⟨(C2_amended_integralAmountOrRangeError lib64 chain2022 "S" "R" "M"
      (fpNat 1) 6 true).2.2.2.2.1 (by decide),
   (C2_amended_integralAmountOrRangeError lib64 chain2022 "S" "R" "M"
      (fpDec 29 2) 2 true).2.2.2.2.2 (by decide)⟩

/-- Claim C3: when the asset's parsed account resolves but the sender's
associated token address does not exist on chain, the token transfer
throws the sender-has-no-account error — it does not return a null or
placeholder result — before any signing or submission, and before any
message is assembled. -/
theorem C3_senderHasNoAccount (lib : Lib) (chain : Chain) (pd : ParsedAccountData)
    (scalarKey sender recipient tokenAddress : String) (amount : FP)
    (useMainnet : Bool) (hk : (bs58Decode scalarKey).isSome = true) :
    (signAndSendSPLTransferTransaction lib
        { chain with parsedAccountInfo := fun _ => some pd, accountInfo := fun _ => false }
        scalarKey sender recipient amount tokenAddress useMainnet).result
      = .error .senderHasNoAccount ∧
    hasSign (signAndSendSPLTransferTransaction lib
        { chain with parsedAccountInfo := fun _ => some pd, accountInfo := fun _ => false }
        scalarKey sender recipient amount tokenAddress useMainnet).trace = false ∧
    hasSend (signAndSendSPLTransferTransaction lib
        { chain with parsedAccountInfo := fun _ => some pd, accountInfo := fun _ => false }
        scalarKey sender recipient amount tokenAddress useMainnet).trace = false ∧
    (signAndSendSPLTransferTransaction lib
        { chain with parsedAccountInfo := fun _ => some pd, accountInfo := fun _ => false }
        scalarKey sender recipient amount tokenAddress useMainnet).message = none := by
  obtain ⟨bs, hbs⟩ := Option.isSome_iff_exists.mp hk
  simp [signAndSendSPLTransferTransaction, hbs, hasSign, hasSend, evIsSign, evIsSend]

/-- Witness for C3 at a concrete request whose asset resolves as a 2022
mint but whose sender has no associated account. -/
theorem C3_witness :
    (signAndSendSPLTransferTransaction lib0
        { chain2022 with
            parsedAccountInfo := fun _ => some ⟨"spl-token-2022", some 6⟩,
            accountInfo := fun _ => false }
        "2" "S" "R" (fpNat 1) "M" true).result
      = .error .senderHasNoAccount ∧
    hasSign (signAndSendSPLTransferTransaction lib0
        { chain2022 with
            parsedAccountInfo := fun _ => some ⟨"spl-token-2022", some 6⟩,
            accountInfo := fun _ => false }
        "2" "S" "R" (fpNat 1) "M" true).trace = false ∧
    hasSend (signAndSendSPLTransferTransaction lib0
        { chain2022 with
            parsedAccountInfo := fun _ => some ⟨"spl-token-2022", some 6⟩,
            accountInfo := fun _ => false }
        "2" "S" "R" (fpNat 1) "M" true).trace = false ∧
    (signAndSendSPLTransferTransaction lib0
        { chain2022 with
            parsedAccountInfo := fun _ => some ⟨"spl-token-2022", some 6⟩,
            accountInfo := fun _ => false }
        "2" "S" "R" (fpNat 1) "M" true).message = none :=
  C3_senderHasNoAccount lib0 chain2022 ⟨"spl-token-2022", some 6⟩
    "2" "S" "R" "M" (fpNat 1) true (by decide)

/-- Counterexample to claim C4: an existing asset account reporting the
unrecognized program identifier "bogus-program" does not make the
operation fail with any unknown-asset error — the transfer builds its
instruction, signs, and submits successfully. -/
theorem C4_counterexample :
    (signAndSendSPLTransferTransaction lib64 chainBogus "2" "S" "R" (fpNat 1) "M" true).result
      = .ok "txhash" ∧
    hasSign (signAndSendSPLTransferTransaction lib64 chainBogus "2" "S" "R" (fpNat 1) "M" true).trace
      = true ∧
    hasSend (signAndSendSPLTransferTransaction lib64 chainBogus "2" "S" "R" (fpNat 1) "M" true).trace
      = true ∧
    runInstrKinds (signAndSendSPLTransferTransaction lib64 chainBogus "2" "S" "R" (fpNat 1) "M" true)
      = [IKind.transfer] := by
  decide

/-- Claim C4 as amended: the transfer aborts before building, signing, or
any RPC write only when the asset account's parsed data is missing
(raising the no-program-data error); an existing account is never
rejected for its program identifier — any identifier other than
"spl-token-2022" is silently treated as the legacy token program and,
provided the converted amount is an integral double and the signer
honours its 64-byte contract, the transfer proceeds to build, sign, and
submit with that program id threaded throughout. -/
theorem C4_amended_fallbackToLegacyProgram (lib : Lib) (chain : Chain)
    (sender recipient tokenAddress p : String) (amount : FP) (d : Nat)
    (useMainnet : Bool)
    (hsig : ∀ msgHex keyHex, (lib.signAsync msgHex keyHex).length = 64)
    (hInt : (fmul amount (pow10FP d)).isInt = true) :
    (signAndSendSPLTransferTransaction lib
        { chain with parsedAccountInfo := fun _ => none }
        "2" sender recipient amount tokenAddress useMainnet).result
      = .error .noProgramData ∧
    hasSign (signAndSendSPLTransferTransaction lib
        { chain with parsedAccountInfo := fun _ => none }
        "2" sender recipient amount tokenAddress useMainnet).trace = false ∧
    hasSend (signAndSendSPLTransferTransaction lib
        { chain with parsedAccountInfo := fun _ => none }
        "2" sender recipient amount tokenAddress useMainnet).trace = false ∧
    (signAndSendSPLTransferTransaction lib
        { chain with parsedAccountInfo := fun _ => none }
        "2" sender recipient amount tokenAddress useMainnet).message = none ∧
    resultIsOk (signAndSendSPLTransferTransaction lib
        { chain with
            parsedAccountInfo := fun _ => some ⟨p, some d⟩,
            accountInfo := fun _ => true }
        "2" sender recipient amount tokenAddress useMainnet).result = true ∧
    hasSend (signAndSendSPLTransferTransaction lib
        { chain with
            parsedAccountInfo := fun _ => some ⟨p, some d⟩,
            accountInfo := fun _ => true }
        "2" sender recipient amount tokenAddress useMainnet).trace = true ∧
    runProgramIds (signAndSendSPLTransferTransaction lib
        { chain with
            parsedAccountInfo := fun _ => some ⟨p, some d⟩,
            accountInfo := fun _ => true }
        "2" sender recipient amount tokenAddress useMainnet)
      = [resolvedProgramId ⟨p, some d⟩, resolvedProgramId ⟨p, some d⟩,
         resolvedProgramId ⟨p, some d⟩] := by
  have hbs : bs58Decode "2" = some [1] := by decide
  refine ⟨?_, ?_, ?_, ?_, ?_, ?_, ?_⟩ <;>
    simp [signAndSendSPLTransferTransaction, hbs, hInt, hsig, hasSign, hasSend,
      evIsSign, evIsSend, resultIsOk, runProgramIds, instrProgramIds,
      addrProgramIds, resolvedProgramId]

/-- Witness for C4's amended claim at the concrete unrecognized program
"bogus-program" with an integral amount and a contract-honouring signer. -/
theorem C4_witness :
    (signAndSendSPLTransferTransaction lib64
        { chain2022 with parsedAccountInfo := fun _ => none }
        "2" "S" "R" (fpNat 1) "M" true).result
      = .error .noProgramData ∧
    hasSign (signAndSendSPLTransferTransaction lib64
        { chain2022 with parsedAccountInfo := fun _ => none }
        "2" "S" "R" (fpNat 1) "M" true).trace = false ∧
    hasSend (signAndSendSPLTransferTransaction lib64
        { chain2022 with parsedAccountInfo := fun _ => none }
        "2" "S" "R" (fpNat 1) "M" true).trace = false ∧
    (signAndSendSPLTransferTransaction lib64
        { chain2022 with parsedAccountInfo := fun _ => none }
        "2" "S" "R" (fpNat 1) "M" true).message = none ∧
    resultIsOk (signAndSendSPLTransferTransaction lib64
        { chain2022 with
            parsedAccountInfo := fun _ => some ⟨"bogus-program", some 2⟩,
            accountInfo := fun _ => true }
        "2" "S" "R" (fpNat 1) "M" true).result = true ∧
    hasSend (signAndSendSPLTransferTransaction lib64
        { chain2022 with
            parsedAccountInfo := fun _ => some ⟨"bogus-program", some 2⟩,
            accountInfo := fun _ => true }
        "2" "S" "R" (fpNat 1) "M" true).trace = true ∧
    runProgramIds (signAndSendSPLTransferTransaction lib64
        { chain2022 with
            parsedAccountInfo := fun _ => some ⟨"bogus-program", some 2⟩,
            accountInfo := fun _ => true }
        "2" "S" "R" (fpNat 1) "M" true)
      = [resolvedProgramId ⟨"bogus-program", some 2⟩,
         resolvedProgramId ⟨"bogus-program", some 2⟩,
         resolvedProgramId ⟨"bogus-program", some 2⟩] :=
  C4_amended_fallbackToLegacyProgram lib64 chain2022 "S" "R" "M" "bogus-program"
    (fpNat 1) 2 true (fun _ _ => rfl) (by decide)

/-- Claim C5: once the asset resolves (with its decimals present) and the
sender's associated account exists, then — for any amount whose converted
integer form is an integral double, so the instruction builder does not
throw — the built instruction list is exactly creation followed by
transfer-checked when the recipient's associated account is missing, and
exactly the transfer-checked instruction alone when it exists. -/
theorem C5_instructionOrdering (lib : Lib) (chain : Chain) (pd : ParsedAccountData)
    (scalarKey sender recipient tokenAddress : String) (amount : FP) (d : Nat)
    (useMainnet : Bool) (hk : (bs58Decode scalarKey).isSome = true)
    (hpd : chain.parsedAccountInfo tokenAddress = some pd)
    (hd : pd.decimals = some d)
    (hInt : (fmul amount (pow10FP d)).isInt = true)
    (hs : chain.accountInfo (Addr.ata tokenAddress sender (resolvedProgramId pd)) = true) :
    (chain.accountInfo (Addr.ata tokenAddress recipient (resolvedProgramId pd)) = false →
      runInstrKinds (signAndSendSPLTransferTransaction lib chain scalarKey sender
        recipient amount tokenAddress useMainnet) = [IKind.create, IKind.transfer]) ∧
    (chain.accountInfo (Addr.ata tokenAddress recipient (resolvedProgramId pd)) = true →
      runInstrKinds (signAndSendSPLTransferTransaction lib chain scalarKey sender
        recipient amount tokenAddress useMainnet) = [IKind.transfer]) := by
  obtain ⟨bs, hbs⟩ := Option.isSome_iff_exists.mp hk
  simp only [resolvedProgramId] at hs
  constructor <;> intro hr <;> simp only [resolvedProgramId] at hr <;>
    simp [signAndSendSPLTransferTransaction, hbs, hpd, hd, hInt, hs, hr,
      runInstrKinds, instrKind, message_ite]

/-- Witness for C5 on a chain where only the sender's associated account
exists: the built list is creation followed by transfer. -/
theorem C5_witness :
    (chainSenderOnly.accountInfo
        (Addr.ata "M" "R" (resolvedProgramId ⟨"spl-token-2022", some 6⟩)) = false →
      runInstrKinds (signAndSendSPLTransferTransaction lib64 chainSenderOnly "2" "S" "R"
        (fpNat 1) "M" true) = [IKind.create, IKind.transfer]) ∧
    (chainSenderOnly.accountInfo
        (Addr.ata "M" "R" (resolvedProgramId ⟨"spl-token-2022", some 6⟩)) = true →
      runInstrKinds (signAndSendSPLTransferTransaction lib64 chainSenderOnly "2" "S" "R"
        (fpNat 1) "M" true) = [IKind.transfer]) :=
  C5_instructionOrdering lib64 chainSenderOnly ⟨"spl-token-2022", some 6⟩
    "2" "S" "R" "M" (fpNat 1) 6 true (by decide) (by decide) (by decide)
    (by decide) (by decide)

/-- Claim C6: within one token-transfer transaction (one whose converted
amount is an integral double, so the instruction builder does not throw),
the program id resolved once from the asset's parsed account metadata is
the identifier used in the sender's associated-address derivation, the
recipient's associated-address derivation, the creation instruction when
present, and the transfer-checked instruction — all program-id references
across the assembled message equal it (three references without a
creation instruction, five with one). -/
theorem C6_programIdConsistency (lib : Lib) (chain : Chain) (pd : ParsedAccountData)
    (scalarKey sender recipient tokenAddress : String) (amount : FP) (d : Nat)
    (useMainnet : Bool) (hk : (bs58Decode scalarKey).isSome = true)
    (hpd : chain.parsedAccountInfo tokenAddress = some pd)
    (hd : pd.decimals = some d)
    (hInt : (fmul amount (pow10FP d)).isInt = true)
    (hs : chain.accountInfo (Addr.ata tokenAddress sender (resolvedProgramId pd)) = true) :
    (runProgramIds (signAndSendSPLTransferTransaction lib chain scalarKey sender
        recipient amount tokenAddress useMainnet)).all
      (· == resolvedProgramId pd) = true ∧
    (runProgramIds (signAndSendSPLTransferTransaction lib chain scalarKey sender
        recipient amount tokenAddress useMainnet)).length
      = (if chain.accountInfo (Addr.ata tokenAddress recipient (resolvedProgramId pd))
         then 3 else 5) := by
  obtain ⟨bs, hbs⟩ := Option.isSome_iff_exists.mp hk
  simp only [resolvedProgramId] at hs ⊢
  by_cases hr : chain.accountInfo
      (Addr.ata tokenAddress recipient
        (if pd.program = "spl-token-2022" then TOKEN_2022_PROGRAM_ID
         else TOKEN_PROGRAM_ID)) = true <;>
    constructor <;>
    simp [signAndSendSPLTransferTransaction, hbs, hpd, hd, hInt, hs, hr,
      runProgramIds, instrProgramIds, addrProgramIds, message_ite]

/-- Witness for C6 on a chain where only the sender's associated account
exists (so the creation instruction is present): all five program-id
references agree with the resolved one. -/
theorem C6_witness :
    (runProgramIds (signAndSendSPLTransferTransaction lib64 chainSenderOnly "2" "S" "R"
        (fpNat 1) "M" true)).all
      (· == resolvedProgramId ⟨"spl-token-2022", some 6⟩) = true ∧
    (runProgramIds (signAndSendSPLTransferTransaction lib64 chainSenderOnly "2" "S" "R"
        (fpNat 1) "M" true)).length
      = (if chainSenderOnly.accountInfo
            (Addr.ata "M" "R" (resolvedProgramId ⟨"spl-token-2022", some 6⟩))
         then 3 else 5) :=
  C6_programIdConsistency lib64 chainSenderOnly ⟨"spl-token-2022", some 6⟩
    "2" "S" "R" "M" (fpNat 1) 6 true (by decide) (by decide) (by decide)
    (by decide) (by decide)

/-- Claim C7: two token-transfer executions identical in all inputs except
the network toggle assemble the same message (hence identical derived
associated addresses), return the same result, and produce the same trace
up to the endpoint URL — the toggle changes only which endpoint the RPC
calls target (all mainnet-run calls go to the mainnet URL, all
development-run calls to the devnet URL); the derived wallet address of
the import flow likewise does not depend on the toggle. -/
theorem C7_networkToggleOnlyAffectsUrl (lib : Lib) (chain : Chain)
    (scalarKey sender recipient tokenAddress : String) (amount : FP) :
    (signAndSendSPLTransferTransaction lib chain scalarKey sender recipient amount
        tokenAddress true).message
      = (signAndSendSPLTransferTransaction lib chain scalarKey sender recipient amount
        tokenAddress false).message ∧
    (signAndSendSPLTransferTransaction lib chain scalarKey sender recipient amount
        tokenAddress true).result
      = (signAndSendSPLTransferTransaction lib chain scalarKey sender recipient amount
        tokenAddress false).result ∧
    (signAndSendSPLTransferTransaction lib chain scalarKey sender recipient amount
        tokenAddress true).trace.map stripUrl
      = (signAndSendSPLTransferTransaction lib chain scalarKey sender recipient amount
        tokenAddress false).trace.map stripUrl ∧
    (urlsOf (signAndSendSPLTransferTransaction lib chain scalarKey sender recipient amount
        tokenAddress true).trace).all (· == MAINNET_URL) = true ∧
    (urlsOf (signAndSendSPLTransferTransaction lib chain scalarKey sender recipient amount
        tokenAddress false).trace).all (· == DEVNET_URL) = true ∧
    importSolanaWalletAddress lib scalarKey true
      = importSolanaWalletAddress lib scalarKey false := by
  refine ⟨?_, ?_, ?_, ?_, ?_, rfl⟩ <;>
  · cases hbs : bs58Decode scalarKey with
    | none =>
      simp [signAndSendSPLTransferTransaction, hbs, urlsOf]
    | some keyBytes =>
      cases hpi : chain.parsedAccountInfo tokenAddress with
      | none =>
        simp [signAndSendSPLTransferTransaction, hbs, hpi, stripUrl, urlsOf,
          urlOf, getNetworkUrl]
      | some pd =>
        simp only [signAndSendSPLTransferTransaction, hbs, hpi]
        repeat' split
        all_goals simp [stripUrl, urlsOf, urlOf, getNetworkUrl]

end Wallet
